import Mathlib

/-
Verification of the subscription-management bot (baylov/smb).

Shallow embedding of the record store (db.py), the admin approval engine
(admin_handlers.py), the receipt-submission transition (user_handlers.py)
and the expiry sweeper (scheduler.py).  Dates are modelled as integer day
numbers; the SQLite subscribers table is a list of rows; transport sends
are modelled as emitted events, with the transport's behaviour supplied as
an oracle mapping the attempt index to an outcome.  Persistence failures
(sqlite3.Error, which the db module catches and converts to a False
return or, for ignored return values, to a silent no-op) are injected via
explicit boolean flags.
-/

namespace SMB

/-- One row of the subscribers table (db.py, CREATE TABLE subscribers).
Dates (DATE columns, nullable) are day numbers. -/
structure SubscriberRecord where
  user_id : Int
  username : Option String
  start_date : Option Int
  end_date : Option Int
  status : String
  subscription_type : Option String
deriving DecidableEq, Repr

/-- The subscribers table. `user_id` is the primary key in SQLite; the list
model does not enforce uniqueness, and no proof below depends on it. -/
abbrev Store := List SubscriberRecord

/-- db._ALLOWED_STATUSES -/
def ALLOWED_STATUSES : List String := ["active", "pending", "expired"]

/-- db._ALLOWED_SUBSCRIPTION_TYPES -/
def ALLOWED_SUBSCRIPTION_TYPES : List String := ["monthly", "lifetime"]

/-- db.get_subscriber: SELECT ... WHERE user_id = ? (first matching row). -/
def get_subscriber (store : Store) (uid : Int) : Option SubscriberRecord :=
  store.find? (fun r => r.user_id == uid)

/-- db.update_subscriber_status.  Validates the status against
_ALLOWED_STATUSES before touching the database; returns rowcount > 0.
`failDB` injects an sqlite3.Error on the UPDATE (caught, rolled back,
reported as False). -/
def update_subscriber_status (failDB : Bool) (store : Store) (uid : Int)
    (status : String) : Bool × Store :=
  if status ∈ ALLOWED_STATUSES then
    if failDB then (false, store)
    else
      (store.any (fun r => r.user_id == uid),
       store.map (fun r => if r.user_id == uid then { r with status := status } else r))
  else (false, store)

/-- db.update_subscription_dates.  Validates the subscription type against
_ALLOWED_SUBSCRIPTION_TYPES (a Python None fails the `in` test) before the
UPDATE; returns rowcount > 0.  `failDB` injects an sqlite3.Error. -/
def update_subscription_dates (failDB : Bool) (store : Store) (uid : Int)
    (sd ed : Option Int) (sub_type : Option String) : Bool × Store :=
  if (match sub_type with
      | some s => decide (s ∈ ALLOWED_SUBSCRIPTION_TYPES)
      | none => false) then
    if failDB then (false, store)
    else
      (store.any (fun r => r.user_id == uid),
       store.map (fun r =>
         if r.user_id == uid then
           { r with start_date := sd, end_date := ed, subscription_type := sub_type }
         else r))
  else (false, store)

/-- Boolean predicate of db.list_expired_subscriptions's WHERE clause:
status = 'active' AND end_date IS NOT NULL AND date(end_date) < date('now'). -/
def expiredQueryPred (today : Int) (r : SubscriberRecord) : Bool :=
  r.status == "active" &&
    (match r.end_date with
     | some e => decide (e < today)
     | none => false)

/-- ORDER BY end_date ASC comparison (all selected rows have a non-null
end_date, so the default for none is never compared). -/
def edOrder (a b : SubscriberRecord) : Prop :=
  a.end_date.getD 0 ≤ b.end_date.getD 0

instance : DecidableRel edOrder := fun _ _ => Int.decLe _ _

instance : IsTotal SubscriberRecord edOrder := ⟨fun _ _ => Int.le_total _ _⟩

instance : IsTrans SubscriberRecord edOrder := ⟨fun _ _ _ h1 h2 => le_trans h1 h2⟩

/-- db.list_expired_subscriptions: the WHERE filter, ordered by end_date
ascending. -/
def list_expired_subscriptions (store : Store) (today : Int) : Store :=
  List.insertionSort edOrder (store.filter (expiredQueryPred today))

/-- The two actions of data_models.AdminApprovalCallback. -/
inductive AdminAction
  | approve
  | decline
deriving DecidableEq, Repr

/-- Tags for the distinct outbound texts built by the handlers. -/
inductive MsgTag
  | subscriptionConfirmation
  | paymentDeclined
  | adminConfirmApprove
  | adminConfirmDecline
  | editApproved
  | editDeclined
  | receiptReceived
  | adminPaymentNotification
deriving DecidableEq, Repr

/-- Tags for the distinct callback_query.answer texts. -/
inductive AnswerTag
  | userNotFound
  | failedUpdate
  | approvedOk
  | declinedOk
  | accessDenied
  | unknownAction
deriving DecidableEq, Repr

/-- An observable transport effect of a handler: a bot.send_message (or
send_photo) to a chat, a callback_query.answer, or a
callback_query.message.edit_text. -/
inductive Msg
  | send (chat_id : Int) (tag : MsgTag)
  | answer (tag : AnswerTag)
  | editMessage (tag : MsgTag)
deriving DecidableEq, Repr

/-- admin_handlers.handle_admin_action.  `caller` is
callback_query.from_user.id; the code reads it only for logging and never
compares it with config.ADMIN_ID (AdminFilter is defined in the module but
never attached to any handler).  `adminId` (config.ADMIN_ID) is used only
as the target chat of the admin confirmation.  `monthlyDays` is
config.MONTHLY_DAYS, `today` is date.today().  The Python
user_data.get('subscription_type', 'monthly') reads a row dict in which
the key is always present, so a NULL column arrives as None and the
'monthly' default never applies; it is modelled as the Option field
itself.  The return value of db.update_subscription_dates is ignored by
the code; the model mirrors this by using only its store component. -/
def handle_admin_action (monthlyDays : Int) (today : Int)
    (failStatusDB failDatesDB : Bool) (adminId : Int) (_caller : Int)
    (store : Store) (action : AdminAction) (target_user_id : Int) :
    Store × List Msg :=
  match get_subscriber store target_user_id with
  | none => (store, [.answer .userNotFound])
  | some user_data =>
    match action with
    | .approve =>
      let res := update_subscriber_status failStatusDB store target_user_id "active"
      if !res.1 then (res.2, [.answer .failedUpdate])
      else
        let subscription_type := user_data.subscription_type
        let start_date := today
        let end_date :=
          if subscription_type == some "lifetime" then start_date + 365 * 10
          else start_date + monthlyDays
        let res2 := update_subscription_dates failDatesDB res.2 target_user_id
          (some start_date) (some end_date) subscription_type
        (res2.2,
         [.send target_user_id .subscriptionConfirmation,
          .send adminId .adminConfirmApprove,
          .editMessage .editApproved,
          .answer .approvedOk])
    | .decline =>
      let res := update_subscriber_status failStatusDB store target_user_id "expired"
      if !res.1 then (res.2, [.answer .failedUpdate])
      else
        (res.2,
         [.send target_user_id .paymentDeclined,
          .send adminId .adminConfirmDecline,
          .editMessage .editDeclined,
          .answer .declinedOk])

/-- user_handlers.handle_receipt_photo, the record-store transition and the
notifications it sends.  `tariff` is payment_data.get("tariff") (None when
the key is absent); the second read passes payment_data.get("tariff",
"monthly"), modelled as Option.getD.  The status-update result is only
logged; the handler continues either way. -/
def handle_receipt_photo (monthlyDays : Int) (today : Int)
    (failStatusDB failDatesDB : Bool) (adminId : Int) (store : Store)
    (user_id : Int) (tariff : Option String) : Store × List Msg :=
  let res := update_subscriber_status failStatusDB store user_id "pending"
  let end_date := if tariff == some "monthly" then some (today + monthlyDays) else none
  let res2 := update_subscription_dates failDatesDB res.2 user_id (some today) end_date
    (some (tariff.getD "monthly"))
  (res2.2, [.send user_id .receiptReceived, .send adminId .adminPaymentNotification])

/-- The callback-data shapes that appear on the wire. -/
inductive CbData
  | buyAccess
  | mySubscription
  | cancelPayment
  | tariffCb (t : String)
  | paymentCb (a : String)
  | adminCb (action : AdminAction) (target : Int)
  | raw (s : String)
deriving DecidableEq, Repr

/-- states.PaymentFlow. -/
inductive FlowState
  | start
  | waiting_tariff_selection
  | waiting_payment_confirmation
  | waiting_receipt_upload
  | waiting_admin_approval
deriving DecidableEq, Repr

/-- The callback_query handlers of both routers, identified by function. -/
inductive HandlerId
  | cbBuyAccess
  | cbTariffSelected
  | cbPaymentConfirmed
  | cbMySubscription
  | cbCancelPayment
  | cbUnknownCallback
  | cbHandleAdminAction
  | cbLegacyApprove
  | cbLegacyDecline
  | cbNonAdminCallback
deriving DecidableEq, Repr

/-- TariffCallback.filter(): matches callback data of shape tariff:... -/
def isTariffData : CbData → Bool
  | .tariffCb _ => true
  | _ => false

/-- PaymentConfirmationCallback.filter(): matches data of shape payment:... -/
def isPaymentData : CbData → Bool
  | .paymentCb _ => true
  | _ => false

/-- Dispatcher resolution of a callback query.  main.register_handlers
includes user_router before admin_router, and within user_router the
callback handlers are tried in registration order (user_handlers.py:
cb_buy_access, cb_tariff_selected, cb_payment_confirmed,
cb_my_subscription, cb_cancel_payment, then the unfiltered
handle_unknown_callback).  Because handle_unknown_callback carries no
filter, it claims every callback query that reaches it, so no callback
query ever propagates to admin_router. -/
def resolve_callback (st : Option FlowState) (data : CbData) : HandlerId :=
  if data == .buyAccess then .cbBuyAccess
  else if isTariffData data && st == some .waiting_tariff_selection then .cbTariffSelected
  else if isPaymentData data && st == some .waiting_payment_confirmation then
    .cbPaymentConfirmed
  else if data == .mySubscription then .cbMySubscription
  else if data == .cancelPayment then .cbCancelPayment
  else .cbUnknownCallback

/-- Handler resolution inside admin_router alone (admin_handlers.py
registration order: handle_admin_action on AdminApprovalCallback.filter(),
the two legacy prefix handlers, then the catch-all
handle_non_admin_callback, which answers access denied).  None of these
filters inspects the sender's identity. -/
def admin_router_resolve (data : CbData) : HandlerId :=
  match data with
  | .adminCb _ _ => .cbHandleAdminAction
  | .raw s =>
    if s.startsWith "approve_" then .cbLegacyApprove
    else if s.startsWith "decline_" then .cbLegacyDecline
    else .cbNonAdminCallback
  | _ => .cbNonAdminCallback

/-- Transport outcome of one bot.send_message call inside
scheduler.notify_user: success; TelegramRetryAfter carrying its
retry_after delay; a TelegramAPIError whose text marks the user as
unreachable (blocked / user not found / chat not found); any other
TelegramAPIError; or an unexpected exception. -/
inductive SendOutcome
  | ok
  | rateLimited (retry_after : Nat)
  | apiPermanent
  | apiTransient
  | unexpected
deriving DecidableEq, Repr

/-- Externally visible actions of notify_user: a send call (numbered by
loop attempt), the rate-limit wait, or the linear-backoff wait. -/
inductive NotifyAction
  | send (attempt : Nat)
  | sleepRateLimit (secs : Nat)
  | sleepBackoff (secs : Nat)
deriving DecidableEq, Repr

/-- The loop of scheduler.notify_user, `for attempt in range(retries)`,
written with an explicit countdown (`remaining` = retries - attempt, so
the loop runs while attempt < retries).  One send per iteration; a
rate-limit sleeps for the transport-given delay and continues the loop; a
permanent API error (blocked/unreachable) and an unexpected exception
return False immediately; any other API error sleeps 2*(attempt+1) when
another attempt remains.  Returns success plus the trace of sends and
waits. -/
def notify_user_go (transport : Nat → SendOutcome) (retries : Nat) :
    Nat → Nat → Bool × List NotifyAction
  | _, 0 => (false, [])
  | attempt, remaining + 1 =>
    match transport attempt with
    | .ok => (true, [.send attempt])
    | .rateLimited w =>
      let rest := notify_user_go transport retries (attempt + 1) remaining
      (rest.1, .send attempt :: .sleepRateLimit w :: rest.2)
    | .apiPermanent => (false, [.send attempt])
    | .apiTransient =>
      let rest := notify_user_go transport retries (attempt + 1) remaining
      (rest.1, .send attempt ::
        (if attempt < retries - 1 then [NotifyAction.sleepBackoff (2 * (attempt + 1))]
         else []) ++ rest.2)
    | .unexpected => (false, [.send attempt])

/-- The default retries=3 used at the sweeper's notify_user call site. -/
def NOTIFY_RETRIES : Nat := 3

/-- scheduler.notify_user. -/
def notify_user (transport : Nat → SendOutcome) (retries : Nat) :
    Bool × List NotifyAction :=
  notify_user_go transport retries 0 retries

/-- Number of send calls in a notify trace. -/
def countSends (tr : List NotifyAction) : Nat :=
  tr.countP (fun a => match a with | .send _ => true | _ => false)

/-- One processed record of a sweeper run: target user, whether the
notification succeeded, how many sends were made, and the status-update
result. -/
structure SweepStep where
  user_id : Int
  sent : Bool
  send_attempts : Nat
  status_updated : Bool
deriving DecidableEq, Repr

/-- Loop body of scheduler.check_expired_subscriptions for one expired
subscription: notify the user, then set the status to expired whether or
not the notification succeeded. -/
def sweepOne (transport : Int → Nat → SendOutcome)
    (acc : Store × List SweepStep) (sub : SubscriberRecord) :
    Store × List SweepStep :=
  let n := notify_user (transport sub.user_id) NOTIFY_RETRIES
  let upd := update_subscriber_status false acc.1 sub.user_id "expired"
  (upd.2, acc.2 ++ [⟨sub.user_id, n.1, countSends n.2, upd.1⟩])

/-- scheduler.check_expired_subscriptions: query the expired records once,
then process each in order. -/
def check_expired_subscriptions (store : Store) (today : Int)
    (transport : Int → Nat → SendOutcome) : Store × List SweepStep :=
  (list_expired_subscriptions store today).foldl (sweepOne transport) (store, [])

/-- A pending monthly request for user 42, as left by the receipt flow. -/
def recMonthly42 : SubscriberRecord :=
  ⟨42, some "alice", none, none, "pending", some "monthly"⟩

/-- A pending lifetime request for user 42. -/
def recLifetime42 : SubscriberRecord :=
  ⟨42, some "alice", none, none, "pending", some "lifetime"⟩

/-- A pending monthly request for user 7 with dates already stored
(start day 0, end day 30), as written by a receipt submitted on day 0. -/
def recMonthlyStored7 : SubscriberRecord :=
  ⟨7, none, some 0, some 30, "pending", some "monthly"⟩

/-- A fresh record for user 42 as created on first contact: pending, no
plan, no dates. -/
def recBlank42 : SubscriberRecord :=
  ⟨42, some "alice", none, none, "pending", none⟩

/-- An active monthly record for user 8 whose end date (day -1) is past. -/
def recActive8 : SubscriberRecord :=
  ⟨8, some "bob", some (-31), some (-1), "active", some "monthly"⟩

end SMB

namespace SMB

/-- Two successive single-row updates keyed on the same user collapse to
one update. -/
lemma map_upd_comp (uid : Int) (store : Store)
    (f g k : SubscriberRecord → SubscriberRecord)
    (hf : ∀ r0, (f r0).user_id = r0.user_id)
    (hgf : ∀ r0, g (f r0) = k r0) :
    (store.map (fun r0 => if r0.user_id == uid then f r0 else r0)).map
      (fun r0 => if r0.user_id == uid then g r0 else r0)
    = store.map (fun r0 => if r0.user_id == uid then k r0 else r0) := by
  rw [List.map_map]
  congr 1
  funext r0
  by_cases hc : (r0.user_id == uid) = true
  · simp [Function.comp, hc, hf, hgf]
  · simp [Function.comp, hc]

/-- handle_admin_action on approve, with a record present whose plan is
set, rewrites every row of the target user: status active, start date =
approval day, end date = approval day + 3650 (lifetime) or + MONTHLY_DAYS
(monthly). -/
lemma approve_updates (monthlyDays today adminId caller : Int) (store : Store)
    (target : Int) (r : SubscriberRecord)
    (hget : get_subscriber store target = some r)
    (hplan : r.subscription_type = some "monthly" ∨ r.subscription_type = some "lifetime") :
    (handle_admin_action monthlyDays today false false adminId caller store
        .approve target).1
      = store.map (fun r0 =>
          if r0.user_id == target then
            { r0 with
              status := "active",
              start_date := some today,
              end_date := some (today +
                if r.subscription_type == some "lifetime" then 365 * 10 else monthlyDays),
              subscription_type := r.subscription_type }
          else r0) := by
  have hget' : store.find? (fun r0 => r0.user_id == target) = some r := hget
  have hmem : r ∈ store := List.mem_of_find?_eq_some hget'
  have hbeq := List.find?_some hget'
  have hany : store.any (fun r0 => r0.user_id == target) = true :=
    List.any_eq_true.mpr ⟨r, hmem, hbeq⟩
  unfold handle_admin_action
  rw [hget]
  unfold update_subscriber_status update_subscription_dates
  rw [if_pos (show "active" ∈ ALLOWED_STATUSES by decide)]
  rcases hplan with h | h
  · simp only [h, if_false, Bool.false_eq_true, hany, Bool.not_true, ite_false, ite_true,
      reduceIte]
    rw [if_pos (show decide ("monthly" ∈ ALLOWED_SUBSCRIPTION_TYPES) = true by decide)]
    exact map_upd_comp target store _ _ _ (fun _ => rfl) (fun _ => rfl)
  · simp only [h, if_false, Bool.false_eq_true, hany, Bool.not_true, ite_false, ite_true,
      reduceIte]
    rw [if_pos (show decide ("lifetime" ∈ ALLOWED_SUBSCRIPTION_TYPES) = true by decide)]
    exact map_upd_comp target store _ _ _ (fun _ => rfl) (fun _ => rfl)

/-- Field values of any row of the target user after an approve on a
record with a set plan. -/
lemma approve_row_fields (monthlyDays today adminId caller : Int) (store : Store)
    (target : Int) (r r' : SubscriberRecord)
    (hget : get_subscriber store target = some r)
    (hplan : r.subscription_type = some "monthly" ∨ r.subscription_type = some "lifetime")
    (hr' : r' ∈ (handle_admin_action monthlyDays today false false adminId caller store
        .approve target).1)
    (hu : r'.user_id = target) :
    r'.status = "active" ∧ r'.start_date = some today ∧
    r'.subscription_type = r.subscription_type ∧
    r'.end_date = some (today +
      if r.subscription_type == some "lifetime" then 365 * 10 else monthlyDays) := by
  rw [approve_updates monthlyDays today adminId caller store target r hget hplan] at hr'
  rcases List.mem_map.mp hr' with ⟨r0, hr0, rfl⟩
  by_cases hc : (r0.user_id == target) = true
  · rw [if_pos hc]
    exact ⟨rfl, rfl, rfl, rfl⟩
  · rw [if_neg hc] at hu
    exact absurd (beq_iff_eq.mpr hu) hc

/-- Claim C2 counterexample: approving a pending lifetime record leaves a
record whose planType is lifetime but whose endDate is not null (the code
writes the far-future sentinel), refuting "endDate is null iff planType
is lifetime" for approved records. -/
theorem approved_lifetime_end_not_null :
    ¬ (∀ r' ∈ (handle_admin_action 30 0 false false 1 1 [recLifetime42]
          .approve 42).1,
        r'.status = "active" →
          (r'.end_date = none ↔ r'.subscription_type = some "lifetime")) := by
  decide

/-- Claim C2 amended: for every row of the approved user whose record had a set
plan, endDate is non-null; for monthly it equals startDate +
monthlyDurationDays exactly, and for lifetime it equals startDate + 3650
days, both dates having been rewritten to the approval day. -/
theorem approved_record_dates (monthlyDays today adminId caller : Int)
    (store : Store) (target : Int) (r : SubscriberRecord)
    (hget : get_subscriber store target = some r)
    (hplan : r.subscription_type = some "monthly" ∨ r.subscription_type = some "lifetime") :
    ∀ r' ∈ (handle_admin_action monthlyDays today false false adminId caller store
        .approve target).1,
      r'.user_id = target →
        r'.end_date ≠ none ∧
        (r.subscription_type = some "monthly" →
          r'.start_date = some today ∧ r'.end_date = some (today + monthlyDays)) ∧
        (r.subscription_type = some "lifetime" →
          r'.start_date = some today ∧ r'.end_date = some (today + 365 * 10)) := by
  intro r' hr' hu
  obtain ⟨_, h2, _, h4⟩ :=
    approve_row_fields monthlyDays today adminId caller store target r r' hget hplan hr' hu
  refine ⟨?_, fun ht => ⟨h2, ?_⟩, fun ht => ⟨h2, ?_⟩⟩
  · rw [h4]; exact Option.some_ne_none _
  · rw [ht] at h4
    rwa [if_neg (by decide : ¬ ((some "monthly" : Option String) == some "lifetime") = true)]
      at h4
  · rw [ht] at h4
    rwa [if_pos (by decide : ((some "lifetime" : Option String) == some "lifetime") = true)]
      at h4

/-- Claim C2 witness: approving the pending lifetime record of user 42 on day 0
gives every row of user 42 a non-null end date, namely day 3650. -/
theorem approved_record_dates_witness :
    get_subscriber [recLifetime42] 42 = some recLifetime42 ∧
    (recLifetime42.subscription_type = some "monthly" ∨
      recLifetime42.subscription_type = some "lifetime") ∧
    (∀ r' ∈ (handle_admin_action 30 0 false false 1 1 [recLifetime42] .approve 42).1,
      r'.user_id = 42 →
        r'.end_date ≠ none ∧
        (recLifetime42.subscription_type = some "monthly" →
          r'.start_date = some 0 ∧ r'.end_date = some (0 + 30)) ∧
        (recLifetime42.subscription_type = some "lifetime" →
          r'.start_date = some 0 ∧ r'.end_date = some (0 + 365 * 10))) :=
  ⟨by decide, by decide,
   approved_record_dates 30 0 1 1 [recLifetime42] 42 recLifetime42 (by decide) (by decide)⟩

/-- Claim C3 counterexample: the record of user 7 stores startDate = day 0 and
plan monthly; approving on day 5 with MONTHLY_DAYS = 30 does not produce
endDate = stored startDate + 30 = day 30 (the code recomputes both dates
from the approval day, yielding day 35). -/
theorem approve_ignores_stored_start_date :
    ¬ (∀ r' ∈ (handle_admin_action 30 5 false false 1 1 [recMonthlyStored7]
          .approve 7).1,
        r'.user_id = 7 →
          r'.end_date = some (recMonthlyStored7.start_date.getD 0 + 30)) := by
  decide

/-- Claim C3 amended: approve sets status to active and recomputes both dates
from the approval day (not the stored startDate): startDate becomes the
approval day; endDate becomes approval day + 3650 for lifetime and
approval day + the configured monthly duration for monthly, for records
whose planType is set. -/
theorem approve_sets_active_and_recomputes_dates (monthlyDays today adminId caller : Int)
    (store : Store) (target : Int) (r : SubscriberRecord)
    (hget : get_subscriber store target = some r)
    (hplan : r.subscription_type = some "monthly" ∨ r.subscription_type = some "lifetime") :
    ∀ r' ∈ (handle_admin_action monthlyDays today false false adminId caller store
        .approve target).1,
      r'.user_id = target →
        r'.status = "active" ∧ r'.start_date = some today ∧
        (r.subscription_type = some "lifetime" → r'.end_date = some (today + 365 * 10)) ∧
        (r.subscription_type = some "monthly" → r'.end_date = some (today + monthlyDays)) := by
  intro r' hr' hu
  obtain ⟨h1, h2, _, h4⟩ :=
    approve_row_fields monthlyDays today adminId caller store target r r' hget hplan hr' hu
  refine ⟨h1, h2, fun ht => ?_, fun ht => ?_⟩
  · rw [ht] at h4
    rwa [if_pos (by decide : ((some "lifetime" : Option String) == some "lifetime") = true)]
      at h4
  · rw [ht] at h4
    rwa [if_neg (by decide : ¬ ((some "monthly" : Option String) == some "lifetime") = true)]
      at h4

/-- Claim C3 witness: approving user 7's stored monthly record (startDate day
0) on day 5 with MONTHLY_DAYS = 30 sets status active, startDate day 5
and endDate day 35. -/
theorem approve_sets_active_and_recomputes_dates_witness :
    get_subscriber [recMonthlyStored7] 7 = some recMonthlyStored7 ∧
    (recMonthlyStored7.subscription_type = some "monthly" ∨
      recMonthlyStored7.subscription_type = some "lifetime") ∧
    (∀ r' ∈ (handle_admin_action 30 5 false false 1 1 [recMonthlyStored7] .approve 7).1,
      r'.user_id = 7 →
        r'.status = "active" ∧ r'.start_date = some 5 ∧
        (recMonthlyStored7.subscription_type = some "lifetime" →
          r'.end_date = some (5 + 365 * 10)) ∧
        (recMonthlyStored7.subscription_type = some "monthly" →
          r'.end_date = some (5 + 30))) :=
  ⟨by decide, by decide,
   approve_sets_active_and_recomputes_dates 30 5 1 1 [recMonthlyStored7] 7 recMonthlyStored7
     (by decide) (by decide)⟩

/-- A single-row update keyed on a user commutes with get_subscriber when
it preserves the key. -/
lemma get_subscriber_upd (store : Store) (uid : Int)
    (f : SubscriberRecord → SubscriberRecord) (hf : ∀ r0, (f r0).user_id = r0.user_id) :
    get_subscriber (store.map (fun r0 => if r0.user_id == uid then f r0 else r0)) uid
      = (get_subscriber store uid).map
          (fun r0 => if r0.user_id == uid then f r0 else r0) := by
  unfold get_subscriber
  induction store with
  | nil => rfl
  | cons a l ih =>
    rw [List.map_cons, List.find?_cons, List.find?_cons]
    by_cases hp : a.user_id = uid
    · have hc : (a.user_id == uid) = true := beq_iff_eq.mpr hp
      rw [if_pos hc, hf a, hc]
      show some (f a)
        = Option.map (fun r0 => if (r0.user_id == uid) = true then f r0 else r0) (some a)
      rw [Option.map_some', if_pos hc]
    · have hc : (a.user_id == uid) = false := beq_eq_false_iff_ne.mpr hp
      rw [if_neg (by rw [hc]; exact Bool.false_ne_true), hc]
      exact ih

/-- handle_receipt_photo with a chosen tariff rewrites every row of the
submitting user: status pending, start date = submission day, end date =
submission day + MONTHLY_DAYS for monthly and null otherwise, plan = the
chosen tariff. -/
lemma receipt_updates (monthlyDays today adminId : Int) (store : Store) (uid : Int)
    (tariff : String) (htar : tariff = "monthly" ∨ tariff = "lifetime") :
    (handle_receipt_photo monthlyDays today false false adminId store uid
        (some tariff)).1
      = store.map (fun r0 =>
          if r0.user_id == uid then
            { r0 with
              status := "pending",
              start_date := some today,
              end_date := if tariff == "monthly" then some (today + monthlyDays) else none,
              subscription_type := some tariff }
          else r0) := by
  unfold handle_receipt_photo update_subscriber_status update_subscription_dates
  rw [if_pos (show "pending" ∈ ALLOWED_STATUSES by decide)]
  rcases htar with h | h <;> subst h
  · simp only [reduceIte, Bool.false_eq_true, if_false, Option.getD_some]
    rw [if_pos (show decide ("monthly" ∈ ALLOWED_SUBSCRIPTION_TYPES) = true by decide)]
    exact map_upd_comp uid store _ _ _ (fun _ => rfl) (fun _ => rfl)
  · simp only [reduceIte, Bool.false_eq_true, if_false, Option.getD_some]
    rw [if_pos (show decide ("lifetime" ∈ ALLOWED_SUBSCRIPTION_TYPES) = true by decide)]
    exact map_upd_comp uid store _ _ _ (fun _ => rfl) (fun _ => rfl)

/-- Claim C4 counterexample: a lifetime receipt submitted on day 0 fixes
(startDate, endDate) = (day 0, null); approving the same day rewrites the
pairs (endDate becomes day 3650), so approval does change the dates fixed
at submission — even with zero delay. -/
theorem approval_changes_submitted_dates :
    ¬ ((handle_admin_action 30 0 false false 1 1
          (handle_receipt_photo 30 0 false false 1 [recBlank42] 42 (some "lifetime")).1
          .approve 42).1.map (fun r0 => (r0.start_date, r0.end_date))
        = (handle_receipt_photo 30 0 false false 1 [recBlank42] 42
            (some "lifetime")).1.map (fun r0 => (r0.start_date, r0.end_date))) := by
  decide

/-- Claim C4 amended: receipt submission computes the dates (startDate =
submission day; endDate = submission day + configured monthly duration
for monthly, null for lifetime), and admin approval then recomputes both
dates from the approval day (startDate = approval day; endDate = approval
day + 3650 for lifetime, + configured monthly duration for monthly). -/
theorem dates_set_at_submission_then_recomputed_at_approval
    (monthlyDays d0 d1 adminId caller : Int) (store : Store) (uid : Int)
    (tariff : String) (htar : tariff = "monthly" ∨ tariff = "lifetime")
    (r : SubscriberRecord) (hget : get_subscriber store uid = some r) :
    (∀ r' ∈ (handle_receipt_photo monthlyDays d0 false false adminId store uid
        (some tariff)).1,
      r'.user_id = uid →
        r'.start_date = some d0 ∧
        r'.end_date = (if tariff = "monthly" then some (d0 + monthlyDays) else none) ∧
        r'.subscription_type = some tariff) ∧
    (∀ r' ∈ (handle_admin_action monthlyDays d1 false false adminId caller
        (handle_receipt_photo monthlyDays d0 false false adminId store uid
          (some tariff)).1 .approve uid).1,
      r'.user_id = uid →
        r'.start_date = some d1 ∧
        r'.end_date = some (d1 + if tariff = "lifetime" then 365 * 10 else monthlyDays)) := by
  have hsub := receipt_updates monthlyDays d0 adminId store uid tariff htar
  have hget' : store.find? (fun r0 => r0.user_id == uid) = some r := hget
  have hbeq := List.find?_some hget'
  constructor
  · intro r' hr' hu
    rw [hsub] at hr'
    rcases List.mem_map.mp hr' with ⟨r0, hr0, rfl⟩
    by_cases hc : (r0.user_id == uid) = true
    · rw [if_pos hc]
      refine ⟨rfl, ?_, rfl⟩
      show (if (tariff == "monthly") = true then some (d0 + monthlyDays) else none) = _
      rcases htar with h | h <;> subst h
      · rw [if_pos (show (("monthly" : String) == "monthly") = true by decide),
          if_pos (rfl : ("monthly" : String) = "monthly")]
      · rw [if_neg (show ¬ (("lifetime" : String) == "monthly") = true by decide),
          if_neg (show ("lifetime" : String) ≠ "monthly" by decide)]
    · rw [if_neg hc] at hu
      exact absurd (beq_iff_eq.mpr hu) hc
  · intro r' hr' hu
    have hget2 : get_subscriber (handle_receipt_photo monthlyDays d0 false false adminId
        store uid (some tariff)).1 uid
        = some { r with
                 status := "pending",
                 start_date := some d0,
                 end_date := if tariff == "monthly" then some (d0 + monthlyDays) else none,
                 subscription_type := some tariff } := by
      rw [hsub]
      rw [get_subscriber_upd store uid (fun r0 =>
        { r0 with
          status := "pending",
          start_date := some d0,
          end_date := if tariff == "monthly" then some (d0 + monthlyDays) else none,
          subscription_type := some tariff }) (fun _ => rfl)]
      rw [hget, Option.map_some', if_pos hbeq]
    have hplan2 : ({ r with
        status := "pending",
        start_date := some d0,
        end_date := if tariff == "monthly" then some (d0 + monthlyDays) else none,
        subscription_type := some tariff } : SubscriberRecord).subscription_type
          = some "monthly" ∨
        ({ r with
        status := "pending",
        start_date := some d0,
        end_date := if tariff == "monthly" then some (d0 + monthlyDays) else none,
        subscription_type := some tariff } : SubscriberRecord).subscription_type
          = some "lifetime" := by
      rcases htar with h | h <;> subst h
      · exact Or.inl rfl
      · exact Or.inr rfl
    obtain ⟨_, h2, _, h4⟩ :=
      approve_row_fields monthlyDays d1 adminId caller _ uid _ r' hget2 hplan2 hr' hu
    refine ⟨h2, ?_⟩
    rw [show ({ r with
      status := "pending",
      start_date := some d0,
      end_date := if tariff == "monthly" then some (d0 + monthlyDays) else none,
      subscription_type := some tariff } : SubscriberRecord).subscription_type
        = some tariff from rfl] at h4
    rcases htar with h | h <;> subst h
    · rw [if_neg (by decide : ¬ ((some "monthly" : Option String) == some "lifetime") = true)]
        at h4
      rw [if_neg (by decide : ¬ (("monthly" : String) = "lifetime"))]
      exact h4
    · rw [if_pos (by decide : ((some "lifetime" : Option String) == some "lifetime") = true)]
        at h4
      rw [if_pos (rfl : ("lifetime" : String) = "lifetime")]
      exact h4

/-- Claim C4 witness: user 42 submits a lifetime receipt on day 0 (dates become
day 0 / null) and is approved on day 5 (dates become day 5 / day 3655). -/
theorem dates_set_at_submission_then_recomputed_at_approval_witness :
    ("lifetime" = "monthly" ∨ "lifetime" = "lifetime") ∧
    get_subscriber [recBlank42] 42 = some recBlank42 ∧
    ((∀ r' ∈ (handle_receipt_photo 30 0 false false 1 [recBlank42] 42
        (some "lifetime")).1,
      r'.user_id = 42 →
        r'.start_date = some 0 ∧
        r'.end_date = (if "lifetime" = "monthly" then some (0 + 30) else none) ∧
        r'.subscription_type = some "lifetime") ∧
    (∀ r' ∈ (handle_admin_action 30 5 false false 1 1
        (handle_receipt_photo 30 0 false false 1 [recBlank42] 42
          (some "lifetime")).1 .approve 42).1,
      r'.user_id = 42 →
        r'.start_date = some 5 ∧
        r'.end_date = some (5 + if "lifetime" = "lifetime" then 365 * 10 else 30))) :=
  ⟨Or.inr rfl, by decide,
   dates_set_at_submission_then_recomputed_at_approval 30 0 5 1 1 [recBlank42] 42
     "lifetime" (Or.inr rfl) recBlank42 (by decide)⟩

/-- Claim C5 counterexample: with the status write succeeding but the
subscription-dates write failing (its boolean result is ignored by the
code), approving user 42 leaves the dates unpersisted yet still sends the
user the approval notification and answers success to the admin — the
operation neither aborts nor surfaces an error. -/
theorem approve_notifies_despite_failed_dates_write :
    (update_subscription_dates true [{ recMonthly42 with status := "active" }] 42
        (some 0) (some 30) (some "monthly")).1 = false ∧
    (handle_admin_action 30 0 false true 1 1 [recMonthly42] .approve 42).1
      = [{ recMonthly42 with status := "active" }] ∧
    Msg.send 42 .subscriptionConfirmation
      ∈ (handle_admin_action 30 0 false true 1 1 [recMonthly42] .approve 42).2 ∧
    Msg.answer .approvedOk
      ∈ (handle_admin_action 30 0 false true 1 1 [recMonthly42] .approve 42).2 := by
  decide

/-- Claim C5 amended: if the status persistence write fails, approve and
decline both abort before any notification, leaving the store unchanged
and emitting only the failure answer on the admin's interface; but the
approve path's subsequent dates write is unchecked — if it alone fails,
the full success notification sequence (user confirmation included) is
still sent. -/
theorem status_write_failure_aborts (monthlyDays today adminId caller : Int)
    (store : Store) (target : Int) (action : AdminAction) (r : SubscriberRecord)
    (hget : get_subscriber store target = some r) :
    handle_admin_action monthlyDays today true false adminId caller store action target
      = (store, [.answer .failedUpdate]) ∧
    (handle_admin_action monthlyDays today false true adminId caller store
        .approve target).2
      = [.send target .subscriptionConfirmation, .send adminId .adminConfirmApprove,
         .editMessage .editApproved, .answer .approvedOk] := by
  have hget' : store.find? (fun r0 => r0.user_id == target) = some r := hget
  have hbeq := List.find?_some hget'
  have hany : store.any (fun r0 => r0.user_id == target) = true :=
    List.any_eq_true.mpr ⟨r, List.mem_of_find?_eq_some hget', hbeq⟩
  constructor
  · cases action
    · unfold handle_admin_action
      rw [hget]
      unfold update_subscriber_status
      rw [if_pos (show "active" ∈ ALLOWED_STATUSES by decide)]
      rfl
    · unfold handle_admin_action
      rw [hget]
      unfold update_subscriber_status
      rw [if_pos (show "expired" ∈ ALLOWED_STATUSES by decide)]
      rfl
  · unfold handle_admin_action
    rw [hget]
    unfold update_subscriber_status
    rw [if_pos (show "active" ∈ ALLOWED_STATUSES by decide)]
    simp only [Bool.false_eq_true, if_false, reduceIte, hany, Bool.not_true]

/-- Claim C5 witness: at a one-row store for user 42, a failing status write
aborts with only the admin failure answer, while a failing dates write
still produces the full success message sequence. -/
theorem status_write_failure_aborts_witness :
    get_subscriber [recMonthly42] 42 = some recMonthly42 ∧
    (handle_admin_action 30 0 true false 1 1 [recMonthly42] .approve 42
        = ([recMonthly42], [.answer .failedUpdate]) ∧
      (handle_admin_action 30 0 false true 1 1 [recMonthly42] .approve 42).2
        = [.send 42 .subscriptionConfirmation, .send 1 .adminConfirmApprove,
           .editMessage .editApproved, .answer .approvedOk]) :=
  ⟨by decide,
   status_write_failure_aborts 30 0 1 1 [recMonthly42] 42 .approve recMonthly42 (by decide)⟩

/-- Claim C1: the authorization claim fails in the code.  (a) Every callback
query whose data is an admin approval payload — from any sender, in any
conversation state — resolves to user_router's unfiltered catch-all
handle_unknown_callback, which answers "Unknown action", not access
denied; admin_router is unreachable for callback queries.  (b) Within
admin_router's own routing such a payload reaches handle_admin_action,
and (c)/(d) handle_admin_action performs no identity check: invoked with
caller 999 while config.ADMIN_ID is 1, it still flips user 42's record to
active and sends the user-facing approval notification. -/
theorem admin_action_not_guarded :
    (∀ st a t, resolve_callback st (.adminCb a t) = .cbUnknownCallback) ∧
    admin_router_resolve (.adminCb .approve 42) = .cbHandleAdminAction ∧
    (∀ r' ∈ (handle_admin_action 30 0 false false 1 999 [recMonthly42] .approve 42).1,
      r'.status = "active") ∧
    Msg.send 42 .subscriptionConfirmation
      ∈ (handle_admin_action 30 0 false false 1 999 [recMonthly42] .approve 42).2 :=
  ⟨fun _ _ _ => rfl, rfl, by decide, by decide⟩

/-- The store component of a sweeper fold: every row whose user appears in
the processed list is set to expired; the rest are untouched. -/
lemma sweep_store_eq (t : Int → Nat → SendOutcome) (l : List SubscriberRecord) :
    ∀ (store : Store) (log : List SweepStep),
    (l.foldl (sweepOne t) (store, log)).1
      = store.map (fun r0 =>
          if l.any (fun s => r0.user_id == s.user_id) then { r0 with status := "expired" }
          else r0) := by
  induction l with
  | nil => intro store log; simp
  | cons s l ih =>
    intro store log
    rw [List.foldl_cons]
    have hone : sweepOne t (store, log) s
        = (store.map (fun r0 =>
            if r0.user_id == s.user_id then { r0 with status := "expired" } else r0),
           log ++ [⟨s.user_id, (notify_user (t s.user_id) NOTIFY_RETRIES).1,
                    countSends (notify_user (t s.user_id) NOTIFY_RETRIES).2,
                    store.any (fun r0 => r0.user_id == s.user_id)⟩]) := by
      unfold sweepOne update_subscriber_status
      rw [if_pos (show "expired" ∈ ALLOWED_STATUSES by decide)]
      rfl
    rw [hone, ih, List.map_map]
    congr 1
    funext r0
    rw [List.any_cons]
    cases hc : (r0.user_id == s.user_id) with
    | true =>
      cases hl : l.any (fun s' => r0.user_id == s'.user_id) <;>
        simp [Function.comp, hc, hl]
    | false => simp [Function.comp, hc]

/-- Entries already in the sweep log survive the rest of the fold. -/
lemma sweep_log_mono (t : Int → Nat → SendOutcome) (l : List SubscriberRecord) :
    ∀ (store : Store) (log : List SweepStep) (x : SweepStep), x ∈ log →
      x ∈ (l.foldl (sweepOne t) (store, log)).2 := by
  induction l with
  | nil => intro _ _ _ hx; exact hx
  | cons s l ih =>
    intro store log x hx
    rw [List.foldl_cons]
    exact ih _ _ x (List.mem_append_left _ hx)

/-- Every processed record leaves a log entry carrying its notification
result and send count. -/
lemma sweep_log_mem (t : Int → Nat → SendOutcome) (l : List SubscriberRecord) :
    ∀ (store : Store) (log : List SweepStep) (s : SubscriberRecord), s ∈ l →
      ∃ step ∈ (l.foldl (sweepOne t) (store, log)).2,
        step.user_id = s.user_id ∧
        step.sent = (notify_user (t s.user_id) NOTIFY_RETRIES).1 ∧
        step.send_attempts = countSends (notify_user (t s.user_id) NOTIFY_RETRIES).2 := by
  induction l with
  | nil => intro _ _ s hs; cases hs
  | cons a l ih =>
    intro store log s hs
    rw [List.foldl_cons]
    rcases List.mem_cons.mp hs with heq | hs'
    · subst heq
      refine ⟨⟨s.user_id, _, _, _⟩,
        sweep_log_mono t l _ _ _
          (List.mem_append_right _ (List.mem_singleton.mpr rfl)), rfl, rfl, rfl⟩
    · exact ih _ _ s hs'

/-- Claim C6: every record matched by a sweeper run ends the run with status
expired whatever the transport did; and when the transport reports the
user as blocked on the first attempt, the log entry for that user shows a
failed notification with exactly one send — no retry. -/
theorem sweeper_expires_regardless_of_notification (store : Store) (today : Int)
    (transport : Int → Nat → SendOutcome) (r : SubscriberRecord)
    (hr : r ∈ list_expired_subscriptions store today) :
    (∀ r' ∈ (check_expired_subscriptions store today transport).1,
        r'.user_id = r.user_id → r'.status = "expired") ∧
    (transport r.user_id 0 = .apiPermanent →
      ∃ step ∈ (check_expired_subscriptions store today transport).2,
        step.user_id = r.user_id ∧ step.sent = false ∧ step.send_attempts = 1) := by
  constructor
  · intro r' hr' hru
    unfold check_expired_subscriptions at hr'
    rw [sweep_store_eq] at hr'
    rcases List.mem_map.mp hr' with ⟨r0, hr0, rfl⟩
    cases hc : ((list_expired_subscriptions store today).any
        (fun s => r0.user_id == s.user_id)) with
    | true => simp [hc]
    | false =>
      rw [hc, if_neg Bool.false_ne_true] at hru
      have hany : ((list_expired_subscriptions store today).any
          (fun s => r0.user_id == s.user_id)) = true :=
        List.any_eq_true.mpr ⟨r, hr, beq_iff_eq.mpr hru⟩
      rw [hc] at hany
      exact absurd hany Bool.false_ne_true
  · intro hperm
    have hgo : ∀ rem, notify_user_go (transport r.user_id) NOTIFY_RETRIES 0 (rem + 1)
        = (false, [.send 0]) := by
      intro rem
      unfold notify_user_go
      rw [hperm]
    have hnot : notify_user (transport r.user_id) NOTIFY_RETRIES = (false, [.send 0]) :=
      hgo 2
    obtain ⟨step, hstep, h1, h2, h3⟩ :=
      sweep_log_mem transport (list_expired_subscriptions store today) store [] r hr
    refine ⟨step, hstep, h1, ?_, ?_⟩
    · rw [h2, hnot]
    · rw [h3, hnot]
      rfl

/-- Claim C6 witness: user 8's active record expired yesterday; a transport
that always reports the user blocked still yields status expired, with a
single failed send logged. -/
theorem sweeper_expires_regardless_of_notification_witness :
    recActive8 ∈ list_expired_subscriptions [recActive8] 0 ∧
    ((∀ r' ∈ (check_expired_subscriptions [recActive8] 0
        (fun _ _ => SendOutcome.apiPermanent)).1,
        r'.user_id = recActive8.user_id → r'.status = "expired") ∧
    ((fun _ _ => SendOutcome.apiPermanent) recActive8.user_id 0 = SendOutcome.apiPermanent →
      ∃ step ∈ (check_expired_subscriptions [recActive8] 0
          (fun _ _ => SendOutcome.apiPermanent)).2,
        step.user_id = recActive8.user_id ∧ step.sent = false ∧
        step.send_attempts = 1)) :=
  ⟨by decide,
   sweeper_expires_regardless_of_notification [recActive8] 0
     (fun _ _ => SendOutcome.apiPermanent) recActive8 (by decide)⟩

/-- Claim C7 counterexample: with a transport that always rate-limits.
With one attempt allowed, the rate-limited send waits the specified 7
seconds but is followed by no retry (one send in total, not two); and
with two attempts allowed against a transport that rate-limits twice then
succeeds, the loop returns failure — the two rate-limited sends consumed
the whole budget, so the would-be successful third send never happens. -/
theorem rate_limit_consumes_attempts :
    notify_user (fun _ => SendOutcome.rateLimited 7) 1
      = (false, [.send 0, .sleepRateLimit 7]) ∧
    countSends (notify_user (fun _ => SendOutcome.rateLimited 7) 1).2 = 1 ∧
    (notify_user (fun n => if n < 2 then SendOutcome.rateLimited 5 else SendOutcome.ok)
        2).1 = false := by
  decide

/-- Claim C7 amended: a rate-limit response causes a wait equal to the
transport-specified backoff; the loop then moves on to the next attempt,
so the rate-limited send consumes one of the bounded retry attempts: a
retry send happens if an attempt remains, and none happens otherwise. -/
theorem rate_limit_waits_then_consumes_attempt (t : Nat → SendOutcome)
    (retries attempt rem w : Nat) (hrl : t attempt = .rateLimited w) :
    notify_user_go t retries attempt (rem + 1)
      = ((notify_user_go t retries (attempt + 1) rem).1,
         .send attempt :: .sleepRateLimit w
           :: (notify_user_go t retries (attempt + 1) rem).2) ∧
    (0 < rem → ∃ rest, (notify_user_go t retries (attempt + 1) rem).2
        = .send (attempt + 1) :: rest) ∧
    (rem = 0 → notify_user_go t retries (attempt + 1) rem = (false, [])) := by
  refine ⟨?_, ?_, ?_⟩
  · conv_lhs => unfold notify_user_go
    rw [hrl]
  · intro hrem
    cases rem with
    | zero => exact absurd hrem (lt_irrefl 0)
    | succ rem' =>
      unfold notify_user_go
      cases t (attempt + 1) <;> exact ⟨_, rfl⟩
  · intro h0
    subst h0
    rfl

/-- Claim C7 witness: with a transport that always rate-limits with delay 5 and
two attempts, the first attempt sends, sleeps 5, and the loop continues
with one attempt left, whose send is the retry. -/
theorem rate_limit_waits_then_consumes_attempt_witness :
    (fun _ => SendOutcome.rateLimited 5) 0 = SendOutcome.rateLimited 5 ∧
    (notify_user_go (fun _ => SendOutcome.rateLimited 5) 2 0 (1 + 1)
      = ((notify_user_go (fun _ => SendOutcome.rateLimited 5) 2 1 1).1,
         .send 0 :: .sleepRateLimit 5
           :: (notify_user_go (fun _ => SendOutcome.rateLimited 5) 2 1 1).2) ∧
    (0 < 1 → ∃ rest, (notify_user_go (fun _ => SendOutcome.rateLimited 5) 2 1 1).2
        = .send 1 :: rest) ∧
    (1 = 0 → notify_user_go (fun _ => SendOutcome.rateLimited 5) 2 1 1 = (false, []))) :=
  ⟨rfl, rate_limit_waits_then_consumes_attempt (fun _ => SendOutcome.rateLimited 5)
    2 0 1 5 rfl⟩

/-- Claim C8: a second sweeper run immediately after a first (same day, no new
expirations) changes no record and notifies nobody: the first run left no
record both active and past due, so the second run's query is empty. -/
theorem sweeper_idempotent (store : Store) (today : Int)
    (t1 t2 : Int → Nat → SendOutcome) :
    check_expired_subscriptions (check_expired_subscriptions store today t1).1 today t2
      = ((check_expired_subscriptions store today t1).1, []) := by
  have hnil : ((check_expired_subscriptions store today t1).1).filter
      (expiredQueryPred today) = [] := by
    rw [List.filter_eq_nil_iff]
    intro r' hr'
    unfold check_expired_subscriptions at hr'
    rw [sweep_store_eq] at hr'
    rcases List.mem_map.mp hr' with ⟨r0, hr0, rfl⟩
    cases hc : ((list_expired_subscriptions store today).any
        (fun s => r0.user_id == s.user_id)) with
    | true => simp [hc, expiredQueryPred]
    | false =>
      rw [if_neg Bool.false_ne_true]
      intro hpred
      have hmem2 : r0 ∈ store.filter (expiredQueryPred today) :=
        List.mem_filter.mpr ⟨hr0, hpred⟩
      have hmem3 : r0 ∈ list_expired_subscriptions store today := by
        unfold list_expired_subscriptions
        exact ((List.perm_insertionSort edOrder _).mem_iff).mpr hmem2
      have hany : ((list_expired_subscriptions store today).any
          (fun s => r0.user_id == s.user_id)) = true :=
        List.any_eq_true.mpr ⟨r0, hmem3, beq_self_eq_true r0.user_id⟩
      rw [hc] at hany
      exact Bool.false_ne_true hany
  show (list_expired_subscriptions (check_expired_subscriptions store today t1).1
      today).foldl (sweepOne t2) ((check_expired_subscriptions store today t1).1, []) = _
  unfold list_expired_subscriptions
  rw [hnil]
  rfl

/-- Claim C9: the sweeper's query returns exactly the rows with status active
and a non-null end date strictly before today — a permutation of that
filter of the store, membership-equivalent to it — ordered by end date
ascending. -/
theorem list_expired_query_spec (store : Store) (today : Int) :
    List.Perm (list_expired_subscriptions store today)
      (store.filter (expiredQueryPred today)) ∧
    List.Sorted edOrder (list_expired_subscriptions store today) ∧
    (∀ r, r ∈ list_expired_subscriptions store today ↔
      r ∈ store ∧ r.status = "active" ∧ ∃ e, r.end_date = some e ∧ e < today) := by
  refine ⟨List.perm_insertionSort edOrder _, List.sorted_insertionSort edOrder _,
    fun r => ?_⟩
  unfold list_expired_subscriptions
  rw [(List.perm_insertionSort edOrder _).mem_iff, List.mem_filter]
  unfold expiredQueryPred
  cases he : r.end_date with
  | none => simp [he]
  | some e => simp [he]

/-- Claim C10: db.update_subscriber_status rejects any status outside
{active, pending, expired} at the store boundary: it returns False and
leaves the store untouched (the guard runs before any SQL executes, so
this holds whether or not the database itself would fail). -/
theorem update_subscriber_status_rejects_invalid (failDB : Bool) (store : Store)
    (uid : Int) (status : String) (h : status ∉ ALLOWED_STATUSES) :
    update_subscriber_status failDB store uid status = (false, store) := by
  unfold update_subscriber_status
  rw [if_neg h]

/-- Claim C10 witness: the status "banana" is invalid and is rejected without
touching a one-row store. -/
theorem update_subscriber_status_rejects_invalid_witness :
    "banana" ∉ ALLOWED_STATUSES ∧
      update_subscriber_status false
        [⟨1, none, none, none, "pending", none⟩] 1 "banana"
        = (false, [⟨1, none, none, none, "pending", none⟩]) :=
  ⟨by decide,
   update_subscriber_status_rejects_invalid false
     [⟨1, none, none, none, "pending", none⟩] 1 "banana" (by decide)⟩

end SMB
